import Mathlib

/-!
Verification of the Capital Allocation & Yield Distribution Engine of the
aidriveyield repository.

The embedding below translates the Solidity sources into Lean:

* `Vault` and its operations follow `src/contracts/src/core/YieldDonatingVault.sol`
  (an ERC-4626 vault, OpenZeppelin v5 share mathematics with decimals offset 0,
  `totalAssets()` being the vault's balance of the underlying ERC-20 asset).
  Amounts are `Nat`; a reverting call is `none`.  The recipient of donations is
  modelled with its own asset balance, distinct from the vault's.
* `StrategyManager` state and `setAllocationWeights` / `rebalance` follow the
  `StrategyManager.sol` source; `validateAllocation` follows `HealthCheck.sol`.
-/

namespace AiYield

/-- denominator of the fixed point weights, `BASIS_POINTS = 10000` in
`StrategyManager.sol`. -/
def BASIS_POINTS : Nat := 10000

/-- maximum allocation change per rebalance, `MAX_REBALANCE_DELTA = 2000`
basis points in `StrategyManager.sol`. -/
def MAX_REBALANCE_DELTA : Nat := 2000

/-- minimum time between donations, `MIN_DONATION_INTERVAL = 1 days`
(86400 seconds) in `YieldDonatingVault.sol`. -/
def MIN_DONATION_INTERVAL : Nat := 86400

/-- State of `YieldDonatingVault` together with the asset balances its
operations touch.  `vaultBalance` is `asset.balanceOf(address(vault))`, which
is what the default ERC-4626 `totalAssets()` returns; `totalUserDeposits` is
the private `_totalUserDeposits` principal tracker; `totalSupply` is the
supply of vault shares; `recipientBalance` is `asset.balanceOf(donationAddress)`
(the donation recipient is assumed distinct from the vault itself). -/
structure Vault where
  vaultBalance : Nat
  totalUserDeposits : Nat
  totalSupply : Nat
  donationAddress : Nat
  recipientBalance : Nat
  lastDonationTimestamp : Nat
  deriving DecidableEq, Repr

/-- the ERC-4626 `totalAssets()` of the vault: its balance of the asset. -/
def totalAssets (s : Vault) : Nat := s.vaultBalance

/-- OpenZeppelin v5 `previewDeposit` with decimals offset 0:
`floor(assets * (totalSupply + 1) / (totalAssets + 1))`. -/
def previewDeposit (s : Vault) (assets : Nat) : Nat :=
  assets * (s.totalSupply + 1) / (s.vaultBalance + 1)

/-- OpenZeppelin v5 `previewMint`: assets for `shares`, rounding up. -/
def previewMint (s : Vault) (shares : Nat) : Nat :=
  (shares * (s.vaultBalance + 1) + s.totalSupply) / (s.totalSupply + 1)

/-- OpenZeppelin v5 `previewWithdraw`: shares for `assets`, rounding up. -/
def previewWithdraw (s : Vault) (assets : Nat) : Nat :=
  (assets * (s.totalSupply + 1) + s.vaultBalance) / (s.vaultBalance + 1)

/-- OpenZeppelin v5 `previewRedeem`: assets for `shares`, rounding down. -/
def previewRedeem (s : Vault) (shares : Nat) : Nat :=
  shares * (s.vaultBalance + 1) / (s.totalSupply + 1)

/-- `deposit(assets, receiver)` override: the super call moves `assets` into
the vault and mints `previewDeposit` shares, then `_totalUserDeposits += assets`. -/
def deposit (s : Vault) (assets : Nat) : Vault :=
  { s with
    vaultBalance := s.vaultBalance + assets
    totalSupply := s.totalSupply + previewDeposit s assets
    totalUserDeposits := s.totalUserDeposits + assets }

/-- `mint(shares, receiver)` override: the super call pulls `previewMint shares`
assets into the vault and mints `shares`, then `_totalUserDeposits += assets`. -/
def mint (s : Vault) (shares : Nat) : Vault :=
  { s with
    vaultBalance := s.vaultBalance + previewMint s shares
    totalSupply := s.totalSupply + shares
    totalUserDeposits := s.totalUserDeposits + previewMint s shares }

/-- the principal adjustment performed at the top of the `withdraw` and
`redeem` overrides: if `totalAssets() > 0`, compute
`proportionalDeposits = (_totalUserDeposits * assets) / totalAssets()` and
subtract it from `_totalUserDeposits` unless that would underflow. -/
def adjustedDeposits (s : Vault) (assets : Nat) : Nat :=
  if 0 < s.vaultBalance then
    if s.totalUserDeposits * assets / s.vaultBalance ≤ s.totalUserDeposits then
      s.totalUserDeposits - s.totalUserDeposits * assets / s.vaultBalance
    else s.totalUserDeposits
  else s.totalUserDeposits

/-- `withdraw(assets, receiver, owner)` override: adjust the principal
tracker, then the super call burns `previewWithdraw assets` shares and
transfers `assets` out of the vault.  The call reverts (`none`) when the
burn or the asset transfer cannot be performed. -/
def withdraw (s : Vault) (assets : Nat) : Option Vault :=
  if previewWithdraw s assets ≤ s.totalSupply then
    if assets ≤ s.vaultBalance then
      some { s with
        totalUserDeposits := adjustedDeposits s assets
        vaultBalance := s.vaultBalance - assets
        totalSupply := s.totalSupply - previewWithdraw s assets }
    else none
  else none

/-- `redeem(shares, receiver, owner)` override: computes
`assets = previewRedeem(shares)`, adjusts the principal tracker with that
amount, then the super call burns `shares` and transfers the assets out. -/
def redeem (s : Vault) (shares : Nat) : Option Vault :=
  if shares ≤ s.totalSupply then
    if previewRedeem s shares ≤ s.vaultBalance then
      some { s with
        totalUserDeposits := adjustedDeposits s (previewRedeem s shares)
        vaultBalance := s.vaultBalance - previewRedeem s shares
        totalSupply := s.totalSupply - shares }
    else none
  else none

/-- `donateYield()`: reverts unless
`block.timestamp >= lastDonationTimestamp + MIN_DONATION_INTERVAL`; returns 0
without touching state when `totalAssets() <= _totalUserDeposits`; otherwise
transfers the difference to the donation address and records the timestamp.
Returns the donated amount with the new state. -/
def donateYield (s : Vault) (now : Nat) : Option (Nat × Vault) :=
  if now < s.lastDonationTimestamp + MIN_DONATION_INTERVAL then none
  else if s.vaultBalance ≤ s.totalUserDeposits then some (0, s)
  else
    some (s.vaultBalance - s.totalUserDeposits,
      { s with
        vaultBalance := s.vaultBalance - (s.vaultBalance - s.totalUserDeposits)
        recipientBalance := s.recipientBalance + (s.vaultBalance - s.totalUserDeposits)
        lastDonationTimestamp := now })

/-- `getAccumulatedYield()`: 0 when `totalAssets() <= _totalUserDeposits`,
otherwise the difference. -/
def getAccumulatedYield (s : Vault) : Nat :=
  if s.vaultBalance ≤ s.totalUserDeposits then 0
  else s.vaultBalance - s.totalUserDeposits

/-- `setDonationAddress(addr)`: reverts for the zero address, otherwise
replaces the donation address. -/
def setDonationAddress (s : Vault) (addr : Nat) : Option Vault :=
  if addr = 0 then none else some { s with donationAddress := addr }

/-- `transferToStrategyManager(amount)`: transfers `amount` of the asset from
the vault to the strategy manager (the caller); reverts when the vault's
balance is insufficient. -/
def transferToStrategyManager (s : Vault) (amount : Nat) : Option Vault :=
  if amount ≤ s.vaultBalance then
    some { s with vaultBalance := s.vaultBalance - amount }
  else none

/-- the state mutating operations the vault exposes. -/
inductive VaultOp where
  | deposit (assets : Nat)
  | mint (shares : Nat)
  | withdraw (assets : Nat)
  | redeem (shares : Nat)
  | donate (now : Nat)
  | setDonation (addr : Nat)
  | toStrategyManager (amount : Nat)
  deriving DecidableEq, Repr

/-- one exposed operation applied to the vault state (`none` is a revert). -/
def step (s : Vault) : VaultOp → Option Vault
  | .deposit a => some (deposit s a)
  | .mint sh => some (mint s sh)
  | .withdraw a => withdraw s a
  | .redeem sh => redeem s sh
  | .donate now => (donateYield s now).map Prod.snd
  | .setDonation addr => setDonationAddress s addr
  | .toStrategyManager amt => transferToStrategyManager s amt

/-- the `AllocationWeights` struct of `StrategyManager.sol`: basis point
weights for the four venues. -/
structure AllocationWeights where
  aave : Nat
  morpho : Nat
  spark : Nat
  uniswap : Nat
  deriving DecidableEq, Repr

/-- sum of the four entries of a weight vector. -/
def weightSum (w : AllocationWeights) : Nat :=
  w.aave + w.morpho + w.spark + w.uniswap

/-- distance used for the delta check, the ternary
`x > y ? x - y : y - x` of the source. -/
def natDelta (x y : Nat) : Nat := if x > y then x - y else y - x

/-- mutable state of `StrategyManager`: the stored allocation and the
`initialized` flag. -/
structure ManagerState where
  currentAllocation : AllocationWeights
  initialized : Bool
  deriving DecidableEq, Repr

/-- `setAllocationWeights(weights)`: requires the four weights to sum to
`BASIS_POINTS`; when `initialized`, additionally requires the aave delta
(and only the aave delta, exactly as the source) to be at most
`MAX_REBALANCE_DELTA`; on success stores the weights and sets `initialized`.
`none` is a revert, leaving the stored state unchanged. -/
def setAllocationWeights (s : ManagerState) (w : AllocationWeights) :
    Option ManagerState :=
  if weightSum w = BASIS_POINTS then
    if s.initialized then
      if natDelta w.aave s.currentAllocation.aave ≤ MAX_REBALANCE_DELTA then
        some { currentAllocation := w, initialized := true }
      else none
    else some { currentAllocation := w, initialized := true }
  else none

/-- `HealthCheck.validateAllocation(aave, morpho, spark, uniswap)`: a pure
function; false unless the weights sum to 10000, none exceeds 8000 and none
falls below 500. -/
def validateAllocation (aave morpho spark uniswap : Nat) : Bool :=
  if aave + morpho + spark + uniswap ≠ 10000 then false
  else if aave > 8000 ∨ morpho > 8000 ∨ spark > 8000 ∨ uniswap > 8000 then false
  else if aave < 500 ∨ morpho < 500 ∨ spark < 500 ∨ uniswap < 500 then false
  else true

/-- `HealthCheck.isHealthy(manager)`: the placeholder that always succeeds. -/
def isHealthy (_manager : ManagerState) : Bool := true

/-- live balances of the four venue adapters, read at the start of
`rebalance()`. -/
structure VenueBalances where
  aave : Nat
  morpho : Nat
  spark : Nat
  uniswap : Nat
  deriving DecidableEq, Repr

/-- what `_rebalanceStrategy` does for one venue. -/
inductive StrategyAction where
  | deposit (amount : Nat)
  | withdraw (amount : Nat)
  | hold
  deriving DecidableEq, Repr

/-- `_rebalanceStrategy(strategy, current, target)`: deposit the shortfall
when `target > current`, withdraw the excess when `target < current`, do
nothing otherwise. -/
def rebalanceAction (current target : Nat) : StrategyAction :=
  if target > current then .deposit (target - current)
  else if target < current then .withdraw (current - target)
  else .hold

/-- per venue actions of one `rebalance()` call, in the fixed venue order. -/
structure RebalancePlan where
  aave : StrategyAction
  morpho : StrategyAction
  spark : StrategyAction
  uniswap : StrategyAction
  deriving DecidableEq, Repr

/-- target amount for one venue, `(totalAssets * weight) / BASIS_POINTS`. -/
def targetAmount (total weight : Nat) : Nat := total * weight / BASIS_POINTS

/-- `rebalance()`: computes each venue's floor target from the vault's
`totalAssets()` and the stored weights, and issues the per venue action
against the venue's live balance. -/
def rebalance (total : Nat) (w : AllocationWeights) (b : VenueBalances) :
    RebalancePlan :=
  { aave := rebalanceAction b.aave (targetAmount total w.aave)
    morpho := rebalanceAction b.morpho (targetAmount total w.morpho)
    spark := rebalanceAction b.spark (targetAmount total w.spark)
    uniswap := rebalanceAction b.uniswap (targetAmount total w.uniswap) }

/-- Claim C3: for every ledger state, `getAccumulatedYield` returns exactly
`max 0 (totalValue - totalPrincipal)`, that is `totalAssets` minus
`totalUserDeposits` when positive and 0 otherwise.  The function is a view:
in the embedding it is a pure function of the state, so repeated reads
coincide and no state is mutated. -/
theorem getAccumulatedYield_eq_max (s : Vault) :
    (getAccumulatedYield s : Int) =
      max 0 ((totalAssets s : Int) - (s.totalUserDeposits : Int)) := by
  unfold getAccumulatedYield totalAssets
  split
  · rw [max_eq_left (by omega)]
    simp
  · rw [max_eq_right (by omega)]
    omega

/-- Claim C4: when the cooldown has elapsed and there is no accumulated
yield (`totalAssets <= totalUserDeposits`), `donateYield` returns 0 and
leaves the state unchanged, in particular `lastDonationTimestamp` is not
advanced. -/
theorem donateYield_zero_noop (s : Vault) (now : Nat)
    (hcool : s.lastDonationTimestamp + MIN_DONATION_INTERVAL ≤ now)
    (hzero : totalAssets s ≤ s.totalUserDeposits) :
    donateYield s now = some (0, s) := by
  unfold totalAssets at hzero
  unfold donateYield
  rw [if_neg (by omega), if_pos hzero]

/-- Concrete application of `donateYield_zero_noop`: cooldown elapsed, no
yield, the call is a no-op returning 0. -/
theorem donateYield_zero_noop_witness :
    donateYield ⟨100, 100, 50, 7, 0, 0⟩ 86400 = some (0, ⟨100, 100, 50, 7, 0, 0⟩) :=
  donateYield_zero_noop ⟨100, 100, 50, 7, 0, 0⟩ 86400 (by decide) (by decide)

/-- Claim C5: `donateYield` reverts (fails with the cooldown error) exactly
when `now < lastDonationTimestamp + MIN_DONATION_INTERVAL`; a revert leaves
the state unchanged by construction.  Moreover, after a successful release of
a positive amount at time `now`, a second call at any `now2 < now +
MIN_DONATION_INTERVAL` reverts with the same error. -/
theorem donateYield_cooldown_iff (s : Vault) (now : Nat) :
    (donateYield s now = none ↔
      now < s.lastDonationTimestamp + MIN_DONATION_INTERVAL) ∧
    (∀ amount s2 now2, donateYield s now = some (amount, s2) → 0 < amount →
      now2 < now + MIN_DONATION_INTERVAL → donateYield s2 now2 = none) := by
  constructor
  · unfold donateYield
    split
    · rename_i h
      simp [h]
    · rename_i h
      split <;> simp [h]
  · intro amount s2 now2 hsome hpos hlt
    unfold donateYield at hsome
    split at hsome
    · exact absurd hsome (by simp)
    · split at hsome
      · simp only [Option.some.injEq, Prod.mk.injEq] at hsome
        omega
      · simp only [Option.some.injEq, Prod.mk.injEq] at hsome
        obtain ⟨ha, hs⟩ := hsome
        subst hs
        unfold donateYield
        rw [if_pos (by simpa using hlt)]

/-- Claim C6: when the cooldown has elapsed and `totalAssets >
totalUserDeposits`, `donateYield` returns exactly the difference, transfers
it to the donation recipient (whose balance increases by it while the
vault's balance drops to the tracked principal, so the accumulated yield
afterwards is 0), records the call time, and leaves the principal tracker
unchanged.  Concretely, with principal 100 and total value 110 the call
returns 10 and the total value becomes 100. -/
theorem donateYield_positive (s : Vault) (now : Nat)
    (hcool : s.lastDonationTimestamp + MIN_DONATION_INTERVAL ≤ now)
    (hpos : s.totalUserDeposits < totalAssets s) :
    donateYield s now =
      some (totalAssets s - s.totalUserDeposits,
        { s with
          vaultBalance := s.totalUserDeposits
          recipientBalance :=
            s.recipientBalance + (totalAssets s - s.totalUserDeposits)
          lastDonationTimestamp := now }) ∧
    getAccumulatedYield
      { s with
        vaultBalance := s.totalUserDeposits
        recipientBalance :=
          s.recipientBalance + (totalAssets s - s.totalUserDeposits)
        lastDonationTimestamp := now } = 0 ∧
    donateYield ⟨110, 100, 100, 7, 0, 0⟩ 86400 =
      some (10, ⟨100, 100, 100, 7, 10, 86400⟩) := by
  unfold totalAssets at hpos ⊢
  refine ⟨?_, by simp [getAccumulatedYield], by decide⟩
  unfold donateYield
  rw [if_neg (by omega), if_neg (by omega)]
  have hvb : s.vaultBalance - (s.vaultBalance - s.totalUserDeposits) =
      s.totalUserDeposits := by omega
  simp [hvb]

/-- Concrete application of `donateYield_positive`: deposit 100, value 110,
the release returns 10 and the value returns to 100. -/
theorem donateYield_positive_witness :
    donateYield ⟨110, 100, 100, 7, 0, 0⟩ 86400 =
      some (10, ⟨100, 100, 100, 7, 10, 86400⟩) ∧
    getAccumulatedYield ⟨100, 100, 100, 7, 10, 86400⟩ = 0 ∧
    donateYield ⟨110, 100, 100, 7, 0, 0⟩ 86400 =
      some (10, ⟨100, 100, 100, 7, 10, 86400⟩) :=
  donateYield_positive ⟨110, 100, 100, 7, 0, 0⟩ 86400 (by decide) (by decide)

/-- Claim C7: for a successful withdrawal of `assets` from a state with
`totalValue > 0`, the principal tracker drops by
`floor(totalPrincipal * assets / totalValue)` unless that subtraction would
underflow (then it is left unchanged), and the total value drops by
`assets`; for a successful `redeem` of `shares` the same holds with
`assets = previewRedeem shares`. -/
theorem withdraw_redeem_principal (s s1 s2 : Vault) (assets shares : Nat)
    (hpos : 0 < totalAssets s)
    (hw : withdraw s assets = some s1)
    (hr : redeem s shares = some s2) :
    (s1.totalUserDeposits =
        (if s.totalUserDeposits * assets / totalAssets s ≤ s.totalUserDeposits then
          s.totalUserDeposits - s.totalUserDeposits * assets / totalAssets s
        else s.totalUserDeposits) ∧
      s1.vaultBalance = totalAssets s - assets) ∧
    (s2.totalUserDeposits =
        (if s.totalUserDeposits * previewRedeem s shares / totalAssets s ≤
            s.totalUserDeposits then
          s.totalUserDeposits -
            s.totalUserDeposits * previewRedeem s shares / totalAssets s
        else s.totalUserDeposits) ∧
      s2.vaultBalance = totalAssets s - previewRedeem s shares) := by
  unfold totalAssets at hpos ⊢
  constructor
  · unfold withdraw at hw
    split at hw
    · split at hw
      · simp only [Option.some.injEq] at hw
        subst hw
        refine ⟨?_, rfl⟩
        unfold adjustedDeposits
        rw [if_pos hpos]
      · exact absurd hw (by simp)
    · exact absurd hw (by simp)
  · unfold redeem at hr
    split at hr
    · split at hr
      · simp only [Option.some.injEq] at hr
        subst hr
        refine ⟨?_, rfl⟩
        unfold adjustedDeposits
        rw [if_pos hpos]
      · exact absurd hr (by simp)
    · exact absurd hr (by simp)

/-- Concrete application of `withdraw_redeem_principal`: from balance 100,
principal 80 and supply 100, withdrawing 50 assets cuts the principal to 40
and the balance to 50; redeeming 10 shares removes 10 assets and cuts the
principal to 72. -/
theorem withdraw_redeem_principal_witness :
    ((40 : Nat) =
        (if (80 * 50 / 100 : Nat) ≤ 80 then 80 - 80 * 50 / 100 else 80) ∧
      (50 : Nat) = 100 - 50) ∧
    ((72 : Nat) =
        (if (80 * previewRedeem ⟨100, 80, 100, 7, 0, 0⟩ 10 / 100 : Nat) ≤ 80 then
          80 - 80 * previewRedeem ⟨100, 80, 100, 7, 0, 0⟩ 10 / 100
        else 80) ∧
      (90 : Nat) = 100 - previewRedeem ⟨100, 80, 100, 7, 0, 0⟩ 10) :=
  withdraw_redeem_principal ⟨100, 80, 100, 7, 0, 0⟩ ⟨50, 40, 50, 7, 0, 0⟩
    ⟨90, 72, 90, 7, 0, 0⟩ 50 10 (by decide) (by decide) (by decide)

/-- Claim C8: `validateAllocation` is a pure total function that accepts a
weight vector exactly when the entries sum to 10000, none exceeds the 8000
diversification ceiling and none falls below the 500 participation floor;
any vector whose sum differs from 10000 is rejected. -/
theorem validateAllocation_iff (a m sp u : Nat) :
    (validateAllocation a m sp u = true ↔
      a + m + sp + u = 10000 ∧
      a ≤ 8000 ∧ m ≤ 8000 ∧ sp ≤ 8000 ∧ u ≤ 8000 ∧
      500 ≤ a ∧ 500 ≤ m ∧ 500 ≤ sp ∧ 500 ≤ u) ∧
    (a + m + sp + u ≠ 10000 → validateAllocation a m sp u = false) := by
  constructor
  · unfold validateAllocation
    split
    · rename_i h1
      simp only [Bool.false_eq_true, false_iff]
      omega
    · split
      · rename_i h1 h2
        simp only [Bool.false_eq_true, false_iff]
        omega
      · split
        · rename_i h1 h2 h3
          simp only [Bool.false_eq_true, false_iff]
          omega
        · rename_i h1 h2 h3
          simp only [true_iff]
          omega
  · intro h
    unfold validateAllocation
    rw [if_pos h]

/-- Claim C9: every `rebalance()` computes each venue's target as
`floor(totalAssets * weight / BASIS_POINTS)` and issues a deposit of the
shortfall when the target exceeds the venue's balance, a withdrawal of the
excess when it is below it, and nothing when they agree; with total value
1000, weights (4000, 3000, 2000, 1000) and all venue balances 0 it issues
exactly the four deposits 400, 300, 200, 100 and no withdrawals. -/
theorem rebalance_plan :
    (∀ (total : Nat) (w : AllocationWeights) (b : VenueBalances),
      (rebalance total w b).aave =
        rebalanceAction b.aave (total * w.aave / BASIS_POINTS) ∧
      (rebalance total w b).morpho =
        rebalanceAction b.morpho (total * w.morpho / BASIS_POINTS) ∧
      (rebalance total w b).spark =
        rebalanceAction b.spark (total * w.spark / BASIS_POINTS) ∧
      (rebalance total w b).uniswap =
        rebalanceAction b.uniswap (total * w.uniswap / BASIS_POINTS)) ∧
    (∀ current target : Nat,
      (current < target →
        rebalanceAction current target = .deposit (target - current)) ∧
      (target < current →
        rebalanceAction current target = .withdraw (current - target)) ∧
      (target = current → rebalanceAction current target = .hold)) ∧
    rebalance 1000 ⟨4000, 3000, 2000, 1000⟩ ⟨0, 0, 0, 0⟩ =
      ⟨.deposit 400, .deposit 300, .deposit 200, .deposit 100⟩ := by
  refine ⟨fun total w b => ⟨rfl, rfl, rfl, rfl⟩,
    fun current target => ⟨?_, ?_, ?_⟩, by decide⟩
  · intro h
    unfold rebalanceAction
    rw [if_pos h]
  · intro h
    unfold rebalanceAction
    rw [if_neg (by omega), if_pos h]
  · intro h
    unfold rebalanceAction
    rw [if_neg (by omega), if_neg (by omega)]

/-- Claim C10: `setAllocationWeights` never applies the validator's bound
checks: an uninitialized controller accepts and stores every weight vector
whose entries sum to `BASIS_POINTS`, including (10000, 0, 0, 0), which
`HealthCheck.validateAllocation` rejects for violating both the 8000 ceiling
and the 500 floor. -/
theorem setAllocationWeights_no_bounds :
    (∀ (s : ManagerState) (w : AllocationWeights), s.initialized = false →
      weightSum w = BASIS_POINTS →
      setAllocationWeights s w = some ⟨w, true⟩) ∧
    setAllocationWeights ⟨⟨0, 0, 0, 0⟩, false⟩ ⟨10000, 0, 0, 0⟩ =
      some ⟨⟨10000, 0, 0, 0⟩, true⟩ ∧
    validateAllocation 10000 0 0 0 = false := by
  refine ⟨?_, by decide, by decide⟩
  intro s w hinit hsum
  unfold setAllocationWeights
  rw [if_pos hsum, hinit]
  simp

/-- Claim C1 counterexample: from stored weights (4000, 3000, 2000, 1000)
the proposal (4000, 500, 500, 5000) sums to 10000 but moves the morpho
weight by 2500 > MAX_REBALANCE_DELTA; the claim says the update must fail,
yet the source checks only the aave delta and accepts and stores it. -/
theorem setAllocationWeights_c1_counterexample :
    setAllocationWeights ⟨⟨4000, 3000, 2000, 1000⟩, true⟩ ⟨4000, 500, 500, 5000⟩ =
      some ⟨⟨4000, 500, 500, 5000⟩, true⟩ ∧
    MAX_REBALANCE_DELTA < natDelta 500 3000 ∧
    weightSum ⟨4000, 500, 500, 5000⟩ = BASIS_POINTS := by decide

/-- Claim C1 (amended): on an initialized controller, `setAllocationWeights`
accepts a vector exactly when its entries sum to `BASIS_POINTS` and the aave
delta `|new.aave - old.aave|` is at most `MAX_REBALANCE_DELTA`; the deltas of
morpho, spark and uniswap are not checked.  When the aave delta exceeds the
limit the call reverts, leaving the stored weights unchanged. -/
theorem setAllocationWeights_delta (s : ManagerState) (w : AllocationWeights)
    (hinit : s.initialized = true) :
    (setAllocationWeights s w = some ⟨w, true⟩ ↔
      weightSum w = BASIS_POINTS ∧
      natDelta w.aave s.currentAllocation.aave ≤ MAX_REBALANCE_DELTA) ∧
    (MAX_REBALANCE_DELTA < natDelta w.aave s.currentAllocation.aave →
      setAllocationWeights s w = none) := by
  unfold setAllocationWeights
  constructor
  · split
    · rename_i hsum
      split
      · rename_i hd
        simp [hsum, hd]
      · rename_i hd
        simp [hsum, hd]
    · rename_i hsum
      simp [hsum]
  · intro hgt
    split
    · rw [if_neg (by omega)]
    · rfl

/-- Concrete application of `setAllocationWeights_delta`: the update from
(4000, 3000, 2000, 1000) to (6000, 2000, 1000, 1000) sits exactly at the
aave delta limit and is accepted. -/
theorem setAllocationWeights_delta_witness :
    (setAllocationWeights ⟨⟨4000, 3000, 2000, 1000⟩, true⟩ ⟨6000, 2000, 1000, 1000⟩ =
        some ⟨⟨6000, 2000, 1000, 1000⟩, true⟩ ↔
      weightSum ⟨6000, 2000, 1000, 1000⟩ = BASIS_POINTS ∧
      natDelta 6000 4000 ≤ MAX_REBALANCE_DELTA) ∧
    (MAX_REBALANCE_DELTA < natDelta 6000 4000 →
      setAllocationWeights ⟨⟨4000, 3000, 2000, 1000⟩, true⟩ ⟨6000, 2000, 1000, 1000⟩ =
        none) :=
  setAllocationWeights_delta ⟨⟨4000, 3000, 2000, 1000⟩, true⟩
    ⟨6000, 2000, 1000, 1000⟩ rfl

/-- Claim C2 counterexample: `transferToStrategyManager` is an exposed
operation other than `donateYield` that reduces the vault's total value
(here from 100 to 95) while leaving the principal tracker untouched, with no
proportional `onWithdraw` adjustment (which would have cut it to 95). -/
theorem transferToStrategyManager_c2_counterexample :
    transferToStrategyManager ⟨100, 100, 100, 7, 0, 0⟩ 5 =
      some ⟨95, 100, 100, 7, 0, 0⟩ ∧
    (95 : Nat) < (100 : Nat) ∧
    (100 : Nat) ≠ adjustedDeposits ⟨100, 100, 100, 7, 0, 0⟩ (100 - 95) := by
  decide

/-- Claim C2 (amended): `donateYield` and `transferToStrategyManager` are
the only exposed operations that reduce the vault's total value without the
proportional principal adjustment; for every other operation, a reduction of
the total value comes with the `onWithdraw` adjustment of the principal
tracker applied to the removed amount. -/
theorem totalAssets_decrease_ops (s s1 : Vault) (op : VaultOp)
    (hstep : step s op = some s1) (hdec : s1.vaultBalance < s.vaultBalance) :
    (∃ now, op = .donate now) ∨ (∃ a, op = .toStrategyManager a) ∨
    s1.totalUserDeposits = adjustedDeposits s (s.vaultBalance - s1.vaultBalance) := by
  cases op with
  | deposit a =>
    exfalso
    simp only [step, Option.some.injEq] at hstep
    subst hstep
    simp only [deposit] at hdec
    omega
  | mint sh =>
    exfalso
    simp only [step, Option.some.injEq] at hstep
    subst hstep
    simp only [mint] at hdec
    omega
  | withdraw a =>
    refine Or.inr (Or.inr ?_)
    simp only [step] at hstep
    unfold withdraw at hstep
    split at hstep
    · split at hstep
      · rename_i hsh ha
        simp only [Option.some.injEq] at hstep
        subst hstep
        have hback : s.vaultBalance - (s.vaultBalance - a) = a := by omega
        rw [hback]
      · exact absurd hstep (by simp)
    · exact absurd hstep (by simp)
  | redeem sh =>
    refine Or.inr (Or.inr ?_)
    simp only [step] at hstep
    unfold redeem at hstep
    split at hstep
    · split at hstep
      · rename_i hsh ha
        simp only [Option.some.injEq] at hstep
        subst hstep
        have hback : s.vaultBalance - (s.vaultBalance - previewRedeem s sh) =
            previewRedeem s sh := by omega
        rw [hback]
      · exact absurd hstep (by simp)
    · exact absurd hstep (by simp)
  | donate now => exact Or.inl ⟨now, rfl⟩
  | setDonation addr =>
    exfalso
    simp only [step] at hstep
    unfold setDonationAddress at hstep
    split at hstep
    · exact absurd hstep (by simp)
    · simp only [Option.some.injEq] at hstep
      subst hstep
      exact absurd hdec (by simp)
  | toStrategyManager amt => exact Or.inr (Or.inl ⟨amt, rfl⟩)

/-- Concrete application of `totalAssets_decrease_ops`: a withdrawal of 50
from balance 100 and principal 100 reduces the total value and applies the
proportional principal adjustment. -/
theorem totalAssets_decrease_ops_witness :
    (∃ now, VaultOp.withdraw 50 = VaultOp.donate now) ∨
    (∃ a, VaultOp.withdraw 50 = VaultOp.toStrategyManager a) ∨
    (50 : Nat) = adjustedDeposits ⟨100, 100, 100, 7, 0, 0⟩ (100 - 50) :=
  totalAssets_decrease_ops ⟨100, 100, 100, 7, 0, 0⟩ ⟨50, 50, 50, 7, 0, 0⟩
    (.withdraw 50) (by decide) (by decide)

end AiYield
